import Mathlib

/-!
Verification of the AI-Sales-Assistant core (config.py, ai_engine.py,
automation.py, database.py, integrations.py) against its specification.

The Python source is shallowly embedded: pure functions become Lean
functions; the Firestore lead store and the Gmail mailbox become explicit
state (association lists / message lists) threaded through the embedded
operations; calls to external collaborators (the Gemini generator, the
Gmail transport, Firestore) are parameterised by oracles describing the
outcome of each call (raise / return value), exactly the set of outcomes
the Python call sites distinguish.  `time.time()` is an explicit `now`
parameter.  Python strings are Lean `String`s; Python's substring test
`pat in s` is `strContains`.
-/

namespace SalesAssistant

/-! Section: config.py -/

/-- config.py: `CALENDLY_LINK`. -/
def CALENDLY_LINK : String := "https://calendly.com/your-username/30min"

/-- config.py: `LEAD_STATUS_MAP`, the classification-token → stored-status
dictionary, embedded as an association list in source order. -/
def LEAD_STATUS_MAP : List (String × String) :=
  [("imported", "Imported"),
   ("sent", "Email Sent"),
   ("replied", "Replied"),
   ("interested", "Interested"),
   ("not_interested", "Not Interested")]

/-! Section: ai_engine.py: score_lead -/

/-- ai_engine.score_lead: the `status_to_score` dictionary, in source order. -/
def status_to_score : List (String × String) :=
  [("interested", "Hot"),
   ("replied", "Warm"),
   ("neutral", "Warm"),
   ("imported", "Warm"),
   ("sent", "Warm"),
   ("ooo", "Warm"),
   ("not_interested", "Cold"),
   ("booked", "Hot")]

/-- ai_engine.score_lead: `status_to_score.get(current_status, "Warm")`. -/
def score_lead (current_status : String) : String :=
  (status_to_score.lookup current_status).getD "Warm"

/-- The keys of `status_to_score` (the eight recognised tokens). -/
def scoreKeys : List String :=
  ["interested", "replied", "neutral", "imported", "sent", "ooo",
   "not_interested", "booked"]

/-! Section: ai_engine.py: classify_response

`gemini.generate_content(prompt)` is an external call; its outcome is
embedded as `GenOutcome`: the call can raise (in the shipped repository it
always raises `AttributeError`, since `GeminiAPI` defines `generate_text`
but not `generate_content`), return `None`, or return a string.  The
classification prompt embeds the email body; the oracle supplied to the
embedded functions maps that body to the outcome of the call. -/

/-- Outcome of one call to the generator (`gemini.generate_content`). -/
inductive GenOutcome where
  | raise : GenOutcome
  | retNone : GenOutcome
  | retStr : String → GenOutcome
deriving DecidableEq

/-- ai_engine.classify_response: the list of accepted categories,
`['interested', 'not_interested', 'neutral', 'ooo']`. -/
def CATEGORIES : List String := ["interested", "not_interested", "neutral", "ooo"]

/-- Python `str.strip()` on the character list (ASCII whitespace both
ends). -/
def stripChars (l : List Char) : List Char :=
  ((l.dropWhile Char.isWhitespace).reverse.dropWhile Char.isWhitespace).reverse

/-- Python `str.lower()`, character-wise. -/
def lowerStr (s : String) : String := ⟨s.data.map Char.toLower⟩

/-- ai_engine.classify_response: the normalisation applied to the generator
output, `.strip().lower().replace(" ", "_")`.  The replace pattern is the
single character ' ', so `.replace(" ", "_")` is the character-wise map
space→underscore. -/
def normalizeClassification (s : String) : String :=
  ⟨((stripChars s.data).map Char.toLower).map (fun c => if c = ' ' then '_' else c)⟩

/-- ai_engine.classify_response, given the outcome of the generator call.
A raising call, and a `None` return (on which `.strip()` raises
`AttributeError`), are caught by the surrounding `except` and yield
`'neutral'`; otherwise the normalised output is returned when it is one of
the four categories, else `'neutral'`. -/
def classify_response (gen : GenOutcome) : String :=
  match gen with
  | .raise => "neutral"
  | .retNone => "neutral"
  | .retStr s =>
      let classification := normalizeClassification s
      if classification ∈ CATEGORIES then classification else "neutral"

/-! Section: Claim C1 -/

/-- C1: for every token in the score table, `score_lead` returns exactly the
mapped value (interested→Hot, replied→Warm, neutral→Warm, imported→Warm,
sent→Warm, ooo→Warm, not_interested→Cold, booked→Hot), and every string
outside the eight tokens maps to "Warm". -/
theorem C1_score_lead_table (s : String) (h : s ∉ scoreKeys) :
    score_lead "interested" = "Hot" ∧
    score_lead "replied" = "Warm" ∧
    score_lead "neutral" = "Warm" ∧
    score_lead "imported" = "Warm" ∧
    score_lead "sent" = "Warm" ∧
    score_lead "ooo" = "Warm" ∧
    score_lead "not_interested" = "Cold" ∧
    score_lead "booked" = "Hot" ∧
    score_lead s = "Warm" := by
  refine ⟨rfl, rfl, rfl, rfl, rfl, rfl, rfl, rfl, ?_⟩
  simp only [scoreKeys, List.mem_cons, List.not_mem_nil, or_false, not_or] at h
  obtain ⟨h1, h2, h3, h4, h5, h6, h7, h8⟩ := h
  simp [score_lead, status_to_score, List.lookup_cons,
    beq_false_of_ne h1, beq_false_of_ne h2, beq_false_of_ne h3,
    beq_false_of_ne h4, beq_false_of_ne h5, beq_false_of_ne h6,
    beq_false_of_ne h7, beq_false_of_ne h8]

/-- C1 witness: the theorem applied at the concrete unrecognised token
"zebra". -/
theorem C1_score_lead_table_witness :
    "zebra" ∉ scoreKeys ∧ score_lead "zebra" = "Warm" :=
  ⟨by decide, (C1_score_lead_table "zebra" (by decide)).2.2.2.2.2.2.2.2⟩

/-! Section: Claim C2 -/

/-- C2 counterexample: the claim states that whenever the generator returns a
value outside the four category strings, `classify_response` returns
'neutral'.  The generator output "Not Interested" is outside the four
categories, yet `classify_response` returns 'not_interested' (the source
normalises with strip/lower/replace-spaces before the membership test), not
'neutral'. -/
theorem C2_counterexample :
    ("Not Interested" ∉ CATEGORIES) ∧
    classify_response (GenOutcome.retStr "Not Interested") = "not_interested" ∧
    classify_response (GenOutcome.retStr "Not Interested") ≠ "neutral" := by
  refine ⟨by decide, by decide, by decide⟩

/-- C2 (amended): `classify_response` always returns one of the four
categories and never raises (it is total); a raising generator call, a
`None` return, or a return whose NORMALISED form (strip whitespace,
lowercase, spaces→underscores) is outside the four categories yields
'neutral'; a return whose normalised form is one of the four categories
yields that normalised token. -/
theorem C2_classify_response (gen : GenOutcome) :
    classify_response gen ∈ CATEGORIES ∧
    classify_response GenOutcome.raise = "neutral" ∧
    classify_response GenOutcome.retNone = "neutral" ∧
    (∀ s, gen = GenOutcome.retStr s → normalizeClassification s ∉ CATEGORIES →
      classify_response gen = "neutral") ∧
    (∀ s, gen = GenOutcome.retStr s → normalizeClassification s ∈ CATEGORIES →
      classify_response gen = normalizeClassification s) := by
  refine ⟨?_, rfl, rfl, ?_, ?_⟩
  · cases gen with
    | raise => decide
    | retNone => decide
    | retStr s =>
        simp only [classify_response]
        split
        · assumption
        · decide
  · rintro s rfl h
    simp [classify_response, h]
  · rintro s rfl h
    simp [classify_response, h]

/-- C2 witness: the amended theorem applied at the concrete generator
outputs "gargabe text!!" (normalised form outside the categories) and
" INTERESTED " (normalised form "interested"). -/
theorem C2_classify_response_witness :
    classify_response (GenOutcome.retStr "garbage text!!") ∈ CATEGORIES ∧
    classify_response (GenOutcome.retStr "garbage text!!") = "neutral" ∧
    classify_response (GenOutcome.retStr " INTERESTED ") = "interested" := by
  refine ⟨(C2_classify_response (GenOutcome.retStr "garbage text!!")).1,
    (C2_classify_response (GenOutcome.retStr "garbage text!!")).2.2.2.1
      "garbage text!!" rfl (by decide),
    ?_⟩
  have h := (C2_classify_response (GenOutcome.retStr " INTERESTED ")).2.2.2.2
    " INTERESTED " rfl (by decide)
  have hn : normalizeClassification " INTERESTED " = "interested" := by decide
  rw [h, hn]

/-! Section: ai_engine.py: generate_cold_email

The generator call is the `GenOutcome` oracle.  `json.loads` is the Python
standard library (external to the repository); it is embedded as an oracle
`String → Except Unit PyVal` returning either a parsed Python value or a
`JSONDecodeError`.  Values are modelled by `PyVal` (JSON floats are
abstracted to integers — no claim depends on numeric values).  The
function's own control flow — inner `except json.JSONDecodeError` with the
manual string-slicing fallback, outer `except Exception` with the template
fallback, and the final link check — is translated branch by branch;
`Except Unit` threads the Python exceptions that the outer handler
catches. -/

/-- Python value as produced by `json.loads`. -/
inductive PyVal where
  | null : PyVal
  | bool : Bool → PyVal
  | num : Int → PyVal
  | str : String → PyVal
  | list : List PyVal → PyVal
  | dict : List (String × PyVal) → PyVal

/-- Python substring test `pat in s`. -/
def strContains (s pat : String) : Bool := decide (pat.data <:+: s.data)

/-- Python `==` between a value and a string (False unless both are str). -/
def pyEqStr (v : PyVal) (s : String) : Bool :=
  match v with
  | .str t => t == s
  | _ => false

/-- Python `d.get(key, default)`: succeeds on a dict, raises
`AttributeError` on any other value. -/
def pyDictGet (v : PyVal) (key : String) (dflt : PyVal) : Except Unit PyVal :=
  match v with
  | .dict kvs => .ok ((kvs.lookup key).getD dflt)
  | _ => .error ()

/-- Python `CALENDLY_LINK in body` for a `PyVal` body: substring test on a
str, element test on a list, key test on a dict, `TypeError` otherwise. -/
def pyContainsLink (body : PyVal) : Except Unit Bool :=
  match body with
  | .str b => .ok (strContains b CALENDLY_LINK)
  | .list xs => .ok (xs.any (fun v => pyEqStr v CALENDLY_LINK))
  | .dict kvs => .ok (kvs.any (fun kv => kv.1 == CALENDLY_LINK))
  | _ => .error ()

/-- The call-to-action appended when the link is absent (source line 57);
it ends with the literal link. -/
def ctaText : String :=
  "\n\nWould you be open to a quick 15-minute chat next week? Here\x27s my booking link: "

/-- Python `body += f"...{CALENDLY_LINK}"`: string concatenation on a str,
character-wise extension on a list (Python `list += str` iterates the
string), `TypeError` otherwise. -/
def pyAppendCTA (body : PyVal) : Except Unit PyVal :=
  match body with
  | .str b => .ok (.str (b ++ (ctaText ++ CALENDLY_LINK)))
  | .list xs =>
      .ok (.list (xs ++ (ctaText ++ CALENDLY_LINK).data.map
        (fun c => PyVal.str (String.singleton c))))
  | _ => .error ()

/-- Python `str.split(sep)` on character lists (non-overlapping,
left-to-right), fuelled by the input length for structural recursion. -/
def splitOnGo (sep : List Char) : Nat → List Char → List (List Char)
  | _, [] => [[]]
  | 0, l => [l]
  | fuel + 1, c :: cs =>
      if sep.isPrefixOf (c :: cs) then
        [] :: splitOnGo sep fuel (cs.drop (sep.length - 1))
      else
        match splitOnGo sep fuel cs with
        | [] => [[c]]
        | p :: ps => (c :: p) :: ps

/-- Python `str.split(sep)` for a non-empty separator. -/
def splitOnList (sep l : List Char) : List (List Char) :=
  if sep.isEmpty then [l] else splitOnGo sep l.length l

/-- Python `s.replace(pat, rep)` (equivalently `rep.join(s.split(pat))`). -/
def replaceStr (s pat rep : String) : String :=
  ⟨List.intercalate rep.data (splitOnList pat.data s.data)⟩

/-- ai_engine.generate_cold_email manual fallback:
`text.split(marker)[1].split('"')[0]`; the `[1]` raises `IndexError`
(caught by the outer handler) when the marker is absent. -/
def extractField (text marker : String) : Except Unit String :=
  match (splitOnList marker.data text.data).get? 1 with
  | some rest => .ok ⟨(splitOnList "\x22".data rest).headD []⟩
  | none => .error ()

/-- The subject marker `'"subject": "'` of the manual fallback. -/
def subjMarker : String := "\x22subject\x22: \x22"

/-- The body marker `'"body": "'` of the manual fallback. -/
def bodyMarker : String := "\x22body\x22: \x22"

/-- Lead fields read by generate_cold_email's fallback template, with the
`.get` defaults of the source (a missing key is `none`). -/
structure PyLead where
  name : Option String
  company : Option String

/-- The `{"subject": ..., "body": ...}` dictionary returned by
generate_cold_email. -/
structure EmailOut where
  subject : PyVal
  body : PyVal

/-- ai_engine.generate_cold_email: the hard-coded template of the outer
`except` handler (source lines 63-66). -/
def fallbackEmail (lead : PyLead) : EmailOut :=
  { subject := .str ("Quick question for " ++ lead.name.getD "you"),
    body := .str (("Hi " ++ lead.name.getD "there" ++
        ",\n\nI was reaching out about " ++ lead.company.getD "your company" ++
        ". Would you have 15 minutes to chat? Here\x27s a link to my calendar: ")
      ++ (CALENDLY_LINK ++ "\n\nBest,\nYour AI Assistant")) }

/-- ai_engine.generate_cold_email, the inner `try`: JSON parse of the raw
generator output (`email_parts.get` on the parsed value), falling back to
string slicing on `json.JSONDecodeError`. -/
def parseEmailParts (jsonLoads : String → Except Unit PyVal) (raw : String) :
    Except Unit (PyVal × PyVal) :=
  match jsonLoads raw with
  | .ok parts =>
      match pyDictGet parts "subject" (.str "Default Subject"),
            pyDictGet parts "body" (.str "Default Body") with
      | .ok s, .ok b => .ok (s, b)
      | _, _ => .error ()
  | .error _ =>
      match extractField raw subjMarker, extractField raw bodyMarker with
      | .ok s, .ok b0 => .ok (.str s, .str (replaceStr b0 "\\n" "\n"))
      | _, _ => .error ()

/-- ai_engine.generate_cold_email, source lines 56-59: the link
check-and-append, then the returned dictionary. -/
def linkStep (subject body : PyVal) : Except Unit EmailOut :=
  match pyContainsLink body with
  | .error _ => .error ()
  | .ok true => .ok ⟨subject, body⟩
  | .ok false =>
      match pyAppendCTA body with
      | .error _ => .error ()
      | .ok body2 => .ok ⟨subject, body2⟩

/-- ai_engine.generate_cold_email, the body of the outer `try`: generator
call, JSON parse with manual fallback, then the link check/append.  Any
`Except.error` is an exception reaching the outer handler. -/
def emailCore (gen : GenOutcome) (jsonLoads : String → Except Unit PyVal) :
    Except Unit EmailOut :=
  match gen with
  | .raise => .error ()
  | .retNone => .error ()
  | .retStr raw =>
      match parseEmailParts jsonLoads raw with
      | .error _ => .error ()
      | .ok (subject, body) => linkStep subject body

/-- ai_engine.generate_cold_email: the outer `except Exception` replaces any
failure by the template email. -/
def generate_cold_email (gen : GenOutcome)
    (jsonLoads : String → Except Unit PyVal) (lead : PyLead) : EmailOut :=
  match emailCore gen jsonLoads with
  | .ok out => out
  | .error _ => fallbackEmail lead

/-- Whether a value is a Python str. -/
def isStrB : PyVal → Bool
  | .str _ => true
  | _ => false

/-- Link post-condition on a returned body: if it is a string, it contains
the literal scheduling link. -/
def bodyLinkOk : PyVal → Bool
  | .str b => strContains b CALENDLY_LINK
  | _ => true

/-- The scheduling link is a substring of `a ++ (CALENDLY_LINK ++ b)`. -/
theorem strContains_mid (a b : String) :
    strContains (a ++ (CALENDLY_LINK ++ b)) CALENDLY_LINK = true := by
  simp only [strContains, decide_eq_true_eq, String.data_append]
  rw [← List.append_assoc]
  exact List.infix_append a.data CALENDLY_LINK.data b.data

/-- The scheduling link is a substring of `a ++ (c ++ CALENDLY_LINK)`. -/
theorem strContains_end (a c : String) :
    strContains (a ++ (c ++ CALENDLY_LINK)) CALENDLY_LINK = true := by
  simp only [strContains, decide_eq_true_eq, String.data_append]
  rw [← List.append_assoc]
  exact (List.suffix_append (a.data ++ c.data) CALENDLY_LINK.data).isInfix

/-- If the link check-and-append step returns an email, its body (when a
string) contains the scheduling link. -/
theorem linkStep_link (subject body : PyVal) (out : EmailOut)
    (h : linkStep subject body = .ok out) : bodyLinkOk out.body = true := by
  unfold linkStep at h
  rcases hc : pyContainsLink body with _ | b
  · rw [hc] at h; exact absurd h (by simp)
  · rw [hc] at h
    cases b with
    | true =>
        simp only [Except.ok.injEq] at h
        subst h
        cases body with
        | str s =>
            have hs : strContains s CALENDLY_LINK = true := by
              simpa [pyContainsLink] using hc
            simp only [bodyLinkOk]
            exact hs
        | null => rfl
        | bool b => rfl
        | num n => rfl
        | list xs => rfl
        | dict kvs => rfl
    | false =>
        rcases ha : pyAppendCTA body with _ | body2
        · rw [ha] at h; exact absurd h (by simp)
        · rw [ha] at h
          simp only [Except.ok.injEq] at h
          subst h
          cases body with
          | str s =>
              simp only [pyAppendCTA, Except.ok.injEq] at ha
              subst ha
              simpa [bodyLinkOk] using strContains_end s ctaText
          | list xs =>
              simp only [pyAppendCTA, Except.ok.injEq] at ha
              subst ha
              rfl
          | null => exact absurd ha (by simp [pyAppendCTA])
          | bool b => exact absurd ha (by simp [pyAppendCTA])
          | num n => exact absurd ha (by simp [pyAppendCTA])
          | dict kvs => exact absurd ha (by simp [pyAppendCTA])

/-- If the core pipeline returns an email, its body (when a string)
contains the scheduling link. -/
theorem emailCore_link (gen : GenOutcome) (jl : String → Except Unit PyVal)
    (out : EmailOut) (h : emailCore gen jl = .ok out) :
    bodyLinkOk out.body = true := by
  cases gen with
  | raise => exact absurd h (by simp [emailCore])
  | retNone => exact absurd h (by simp [emailCore])
  | retStr raw =>
      simp only [emailCore] at h
      rcases hp : parseEmailParts jl raw with _ | ⟨subject, body⟩
      · rw [hp] at h; exact absurd h (by simp)
      · rw [hp] at h
        exact linkStep_link subject body out h

/-! Section: Claim C3 -/

/-- C3 counterexample: the claim states that generate_cold_email always
returns 'subject' and 'body' STRING values.  When the generator returns the
raw text `{"subject": 5, "body": "hello"}` — which `json.loads` parses to a
dict whose 'subject' is the integer 5 — the function returns that integer
as the subject unchanged, so the returned subject is not a string. -/
theorem C3_counterexample :
    (generate_cold_email
      (GenOutcome.retStr "\x7b\x22subject\x22: 5, \x22body\x22: \x22hello\x22\x7d")
      (fun _ => .ok (.dict [("subject", .num 5), ("body", .str "hello")]))
      { name := some "Jane", company := some "Acme" }).subject = PyVal.num 5 ∧
    isStrB (generate_cold_email
      (GenOutcome.retStr "\x7b\x22subject\x22: 5, \x22body\x22: \x22hello\x22\x7d")
      (fun _ => .ok (.dict [("subject", .num 5), ("body", .str "hello")]))
      { name := some "Jane", company := some "Acme" }).subject = false := by
  constructor
  · rfl
  · rfl

/-- C3 (amended): generate_cold_email never raises (it is total) and always
returns a subject/body pair; whenever the returned body is a string — which
holds on the manual text fallback and on the exception fallback, and on the
structured-parse path whenever the parse yields a string body — the body
contains the literal scheduling-link text; the generator raising (as every
call in the shipped repository does, `GeminiAPI` having no
`generate_content` method) or returning `None` yields exactly the template
fallback, whose subject and body are strings.  What the counterexample
removes from the original claim: on the structured-parse path a non-string
parsed 'subject' (or 'body') value can be returned as-is. -/
theorem C3_generate_cold_email (gen : GenOutcome)
    (jl : String → Except Unit PyVal) (lead : PyLead) :
    bodyLinkOk (generate_cold_email gen jl lead).body = true ∧
    generate_cold_email GenOutcome.raise jl lead = fallbackEmail lead ∧
    generate_cold_email GenOutcome.retNone jl lead = fallbackEmail lead ∧
    isStrB (fallbackEmail lead).subject = true ∧
    isStrB (fallbackEmail lead).body = true ∧
    bodyLinkOk (fallbackEmail lead).body = true := by
  refine ⟨?_, rfl, rfl, rfl, rfl, ?_⟩
  · rcases h : emailCore gen jl with _ | out
    · simp only [generate_cold_email, h, fallbackEmail]
      exact strContains_mid _ _
    · simpa [generate_cold_email, h] using emailCore_link gen jl out h
  · simpa [fallbackEmail, bodyLinkOk] using strContains_mid
      ("Hi " ++ lead.name.getD "there" ++ ",\n\nI was reaching out about " ++
        lead.company.getD "your company" ++
        ". Would you have 15 minutes to chat? Here\x27s a link to my calendar: ")
      "\n\nBest,\nYour AI Assistant"

/-! Section: database.py: the lead store

The Firestore collection of leads is embedded as an association list from
document id to the stored fields used by the core (database.Lead fields
that automation.py reads or writes).  `update_lead` catches only
`ConnectionError`; any other Firestore failure (network error, missing
document) propagates to its caller — those external failures are injected
through a `String → Bool` oracle per document id, and a raising update
leaves the store unchanged.  The degenerate no-database mode (db is None:
every operation silently a no-op) is outside the model. -/

/-- The stored fields of a lead document touched by the core. -/
structure StoredLead where
  status : String
  score : String
  thread_id : Option String
  last_activity : Nat
  campaign_id : Option String
  sent_count : Nat
deriving DecidableEq

/-- The lead collection: document id ↦ stored fields. -/
def Store : Type := List (String × StoredLead)

/-- A partial-fields update dictionary as passed to `update_lead`
(`none` = key absent from the dictionary). -/
structure LeadUpdates where
  status : Option String
  score : Option String
  thread_id : Option String
  last_activity : Option Nat
  campaign_id : Option String
  sent_count : Option Nat

/-- Firestore document update: fields present in the dictionary overwrite,
the rest are kept. -/
def applyUpdates (r : StoredLead) (u : LeadUpdates) : StoredLead :=
  { status := u.status.getD r.status,
    score := u.score.getD r.score,
    thread_id := match u.thread_id with | some t => some t | none => r.thread_id,
    last_activity := u.last_activity.getD r.last_activity,
    campaign_id := match u.campaign_id with | some c => some c | none => r.campaign_id,
    sent_count := u.sent_count.getD r.sent_count }

/-- Whether the collection holds a document with this id. -/
def storeHas (store : Store) (id : String) : Bool :=
  store.any (fun p => p.1 == id)

/-- database.update_lead: returns the new store and whether the call raised
(injected failure, or updating an absent document — Firestore NotFound);
a raising update changes nothing. -/
def update_lead (updateFails : String → Bool) (store : Store) (id : String)
    (u : LeadUpdates) : Store × Bool :=
  bif updateFails id || !(storeHas store id) then (store, true)
  else (store.map (fun p => bif p.1 == id then (p.1, applyUpdates p.2 u) else p), false)

/-- Document lookup by id (first match). -/
def lookupStore (store : Store) (id : String) : Option StoredLead :=
  store.lookup id

/-! Section: integrations.py: the mailbox gateway

`GmailAPI.send_email` raises on transport failure and otherwise returns
`None` (service unavailable) or the thread id string; the batch senders
test it for truthiness, so `None` and `""` both count as a failed send. -/

/-- Outcome of one `send_email` call. -/
inductive SendOutcome where
  | raise : SendOutcome
  | ret : Option String → SendOutcome
deriving DecidableEq

/-- The thread id of a successful (truthy) send, if any. -/
def sendSucceeded : SendOutcome → Option String
  | .raise => none
  | .ret none => none
  | .ret (some t) => if t == "" then none else some t

/-! Section: automation.py: SequenceManager -/

/-- The fields of a lead dictionary read by the sequence manager
(`lead.get("sent_count", 0)` is embedded as the resolved value). -/
structure CLead where
  id : String
  name : String
  company : String
  email : String
  sent_count : Nat
deriving DecidableEq

/-- The campaign fields read by run_campaign_send. -/
structure PyCampaign where
  name : String
  id : String

/-- automation.SequenceManager.run_campaign_send, one iteration per lead:
the send call (outcome given by the per-index gateway oracle), and on a
truthy thread id the store update with status "sent".  The whole iteration
body sits in `try/except Exception`, so a raising send or a raising update
is caught and the loop continues; the returned list records the recipient
of every attempted send.  `time.sleep(1)` has no observable effect in the
model. -/
def runCampaignAux (sendO : Nat → SendOutcome) (updateFails : String → Bool)
    (now : Nat) (campaign : PyCampaign) :
    List CLead → Nat → Store → Store × List String
  | [], _, store => (store, [])
  | l :: ls, i, store =>
      let store' :=
        match sendSucceeded (sendO i) with
        | none => store
        | some tid =>
            (update_lead updateFails store l.id
              { status := some "sent", score := none, thread_id := some tid,
                last_activity := some now, campaign_id := some campaign.id,
                sent_count := some (l.sent_count + 1) }).1
      let rest := runCampaignAux sendO updateFails now campaign ls (i + 1) store'
      (rest.1, l.email :: rest.2)

/-- automation.SequenceManager.run_campaign_send over a batch of leads:
final store and the ordered list of attempted recipients. -/
def run_campaign_send (sendO : Nat → SendOutcome) (updateFails : String → Bool)
    (now : Nat) (campaign : PyCampaign) (leads : List CLead) (store : Store) :
    Store × List String :=
  runCampaignAux sendO updateFails now campaign leads 0 store

/-- automation.SequenceManager.send_follow_up: the composed follow-up body
(source line 68). -/
def followUpBody (lead : CLead) : String :=
  ("Hi " ++ lead.name ++ ",\n\nJust following up on my previous email.\n\n")
    ++ (CALENDLY_LINK ++ "\n\nBest,\nYour Sales Team")

/-- automation.SequenceManager.send_follow_up: on a truthy thread id,
update only `last_activity` and `sent_count`; a raising send or update is
caught by the surrounding `except` and leaves the store unchanged. -/
def send_follow_up (sendO : SendOutcome) (updateFails : String → Bool)
    (now : Nat) (lead : CLead) (_step : Nat) (store : Store) : Store :=
  match sendSucceeded sendO with
  | none => store
  | some _ =>
      (update_lead updateFails store lead.id
        { status := none, score := none, thread_id := none,
          last_activity := some now, campaign_id := none,
          sent_count := some (lead.sent_count + 1) }).1

/-! Section: Store lemmas -/

/-- A per-key map that keeps every key leaves lookups at other keys
unchanged. -/
theorem lookup_map_other (st : Store) (id x : String) (g : StoredLead → StoredLead)
    (h : x ≠ id) :
    List.lookup x (st.map (fun p => bif p.1 == id then (p.1, g p.2) else p)) =
      List.lookup x st := by
  induction st with
  | nil => rfl
  | cons p ps ih =>
      rcases p with ⟨k, v⟩
      cases hk : (k == id) with
      | true =>
          have hxk : (x == k) = false := by
            have hki : k = id := by simpa using hk
            subst hki
            simpa using h
          simp [List.lookup_cons, hk, hxk, ih]
      | false =>
          cases hx : (x == k) with
          | true => simp [List.lookup_cons, hk, hx]
          | false => simp [List.lookup_cons, hk, hx, ih]

/-- A per-key map applies its transformation to the looked-up value. -/
theorem lookup_map_self (st : Store) (id : String) (g : StoredLead → StoredLead)
    (r : StoredLead) (h : List.lookup id st = some r) :
    List.lookup id (st.map (fun p => bif p.1 == id then (p.1, g p.2) else p)) =
      some (g r) := by
  induction st with
  | nil => simp [List.lookup] at h
  | cons p ps ih =>
      rcases p with ⟨k, v⟩
      cases hk : (id == k) with
      | true =>
          have hk' : (k == id) = true := by
            have hik : id = k := by simpa using hk
            simp [hik]
          have hv : v = r := by simpa [List.lookup_cons, hk] using h
          subst hv
          simp [List.lookup_cons, hk, hk']
      | false =>
          have hk' : (k == id) = false := by
            have hik : ¬ id = k := by simpa using hk
            simp [Ne.symm hik]
          have ht : List.lookup id ps = some r := by
            simpa [List.lookup_cons, hk] using h
          simp [List.lookup_cons, hk, hk', ih ht]

/-- Looking up a present key witnesses key membership. -/
theorem lookup_some_storeHas (st : Store) (id : String) (r : StoredLead)
    (h : List.lookup id st = some r) : storeHas st id = true := by
  induction st with
  | nil => simp [List.lookup] at h
  | cons p ps ih =>
      rcases p with ⟨k, v⟩
      by_cases hk : (id == k) = true
      · have : k = id := by
          have : id = k := by simpa using hk
          simp [this]
        simp [storeHas, this]
      · have ht : List.lookup id ps = some r := by
          simpa [List.lookup, hk] using h
        have := ih ht
        simp only [storeHas, List.any_cons, Bool.or_eq_true]
        right
        simpa [storeHas] using this

/-- update_lead never changes the key set. -/
theorem update_lead_keys (uf : String → Bool) (st : Store) (id : String)
    (u : LeadUpdates) (x : String) :
    storeHas (update_lead uf st id u).1 x = storeHas st x := by
  cases hc : (uf id || !(storeHas st id)) with
  | true => simp [update_lead, hc]
  | false =>
      simp only [update_lead, hc, Bool.cond_false]
      simp only [storeHas, List.any_map]
      congr 1
      funext p
      cases hp : (p.1 == id) with
      | true => simp [Function.comp, hp]
      | false => simp [Function.comp, hp]

/-- update_lead leaves other documents unchanged. -/
theorem update_lead_lookup_other (uf : String → Bool) (st : Store) (id : String)
    (u : LeadUpdates) (x : String) (h : x ≠ id) :
    lookupStore (update_lead uf st id u).1 x = lookupStore st x := by
  cases hc : (uf id || !(storeHas st id)) with
  | true => simp [update_lead, hc]
  | false =>
      simp only [update_lead, hc, Bool.cond_false, lookupStore]
      exact lookup_map_other st id x (fun r => applyUpdates r u) h

/-- A non-raising update_lead merges the update into the stored document. -/
theorem update_lead_lookup_self (uf : String → Bool) (st : Store) (id : String)
    (u : LeadUpdates) (r : StoredLead) (huf : uf id = false)
    (h : lookupStore st id = some r) :
    lookupStore (update_lead uf st id u).1 id = some (applyUpdates r u) := by
  have hhas : storeHas st id = true := lookup_some_storeHas st id r h
  have hc : (uf id || !(storeHas st id)) = false := by simp [huf, hhas]
  simp only [update_lead, hc, Bool.cond_false, lookupStore]
  exact lookup_map_self st id (fun r => applyUpdates r u) r h

/-- The batch send never touches documents whose id is not among the
processed leads. -/
theorem runCampaignAux_frame (sendO : Nat → SendOutcome) (uf : String → Bool)
    (now : Nat) (campaign : PyCampaign) :
    ∀ (leads : List CLead) (i : Nat) (store : Store) (x : String),
    x ∉ leads.map (fun l => l.id) →
    lookupStore (runCampaignAux sendO uf now campaign leads i store).1 x =
      lookupStore store x := by
  intro leads
  induction leads with
  | nil => intro i store x _; rfl
  | cons l ls ih =>
      intro i store x hx
      simp only [List.map_cons, List.mem_cons, not_or] at hx
      obtain ⟨hx1, hx2⟩ := hx
      simp only [runCampaignAux]
      cases hs : sendSucceeded (sendO i) with
      | none =>
          simpa using ih (i + 1) store x (by simpa using hx2)
      | some tid =>
          rw [ih (i + 1) _ x (by simpa using hx2)]
          exact update_lead_lookup_other uf store l.id _ x hx1

/-- Key membership is preserved by the batch send. -/
theorem runCampaignAux_keys (sendO : Nat → SendOutcome) (uf : String → Bool)
    (now : Nat) (campaign : PyCampaign) :
    ∀ (leads : List CLead) (i : Nat) (store : Store) (x : String),
    storeHas (runCampaignAux sendO uf now campaign leads i store).1 x =
      storeHas store x := by
  intro leads
  induction leads with
  | nil => intro i store x; rfl
  | cons l ls ih =>
      intro i store x
      simp only [runCampaignAux]
      cases hs : sendSucceeded (sendO i) with
      | none => simpa using ih (i + 1) store x
      | some tid =>
          rw [ih (i + 1) _ x]
          exact update_lead_keys uf store l.id _ x

/-- Main induction for run_campaign_send: every lead is attempted in input
order, and the final store holds exactly the successful sends as
status-"sent" updates, the others untouched. -/
theorem runCampaignAux_spec (sendO : Nat → SendOutcome) (uf : String → Bool)
    (now : Nat) (campaign : PyCampaign) :
    ∀ (leads : List CLead) (i : Nat) (store : Store),
    (∀ l ∈ leads, uf l.id = false) →
    (∀ l ∈ leads, storeHas store l.id = true) →
    (leads.map (fun l => l.id)).Nodup →
    (runCampaignAux sendO uf now campaign leads i store).2 =
      leads.map (fun l => l.email) ∧
    (∀ j l, leads[j]? = some l →
      (∀ tid, sendSucceeded (sendO (i + j)) = some tid →
        ∀ r, lookupStore store l.id = some r →
        lookupStore (runCampaignAux sendO uf now campaign leads i store).1 l.id =
          some { status := "sent", score := r.score, thread_id := some tid,
                 last_activity := now, campaign_id := some campaign.id,
                 sent_count := l.sent_count + 1 }) ∧
      (sendSucceeded (sendO (i + j)) = none →
        lookupStore (runCampaignAux sendO uf now campaign leads i store).1 l.id =
          lookupStore store l.id)) := by
  intro leads
  induction leads with
  | nil =>
      intro i store _ _ _
      exact ⟨rfl, fun j l hj => by simp at hj⟩
  | cons l ls ih =>
      intro i store huf hhas hnd
      have hufl : uf l.id = false := huf l (by simp)
      rw [List.map_cons] at hnd
      have hndl : l.id ∉ ls.map (fun l => l.id) := (List.nodup_cons.mp hnd).1
      have hndt : (ls.map (fun l => l.id)).Nodup := (List.nodup_cons.mp hnd).2
      -- the store after processing the head
      simp only [runCampaignAux]
      cases hs : sendSucceeded (sendO i) with
      | none =>
          have ihh := ih (i + 1) store
            (fun l hl => huf l (by simp [hl]))
            (fun l hl => hhas l (by simp [hl])) hndt
          refine ⟨by simpa using ihh.1, ?_⟩
          intro j lj hj
          cases j with
          | zero =>
              simp only [List.getElem?_cons_zero, Option.some.injEq] at hj
              subst hj
              constructor
              · intro tid htid
                rw [Nat.add_zero] at htid
                rw [htid] at hs
                exact absurd hs (by simp)
              · intro _
                simpa using runCampaignAux_frame sendO uf now campaign ls
                  (i + 1) store l.id hndl
          | succ j' =>
              simp only [List.getElem?_cons_succ] at hj
              have hidx : i + (j' + 1) = (i + 1) + j' := by omega
              have := ihh.2 j' lj hj
              constructor
              · intro tid htid
                rw [hidx] at htid
                simpa using this.1 tid htid
              · intro hnone
                rw [hidx] at hnone
                simpa using this.2 hnone
      | some tid =>
          set u : LeadUpdates :=
            { status := some "sent", score := none, thread_id := some tid,
              last_activity := some now, campaign_id := some campaign.id,
              sent_count := some (l.sent_count + 1) } with hu
          set store' : Store := (update_lead uf store l.id u).1 with hstore'
          have hkeys : ∀ x, storeHas store' x = storeHas store x := fun x =>
            update_lead_keys uf store l.id u x
          have ihh := ih (i + 1) store'
            (fun l hl => huf l (by simp [hl]))
            (fun l hl => by rw [hkeys]; exact hhas l (by simp [hl])) hndt
          refine ⟨by simpa using ihh.1, ?_⟩
          intro j lj hj
          cases j with
          | zero =>
              simp only [List.getElem?_cons_zero, Option.some.injEq] at hj
              subst hj
              constructor
              · intro tid' htid' r hr
                rw [Nat.add_zero] at htid'
                rw [htid'] at hs
                have htid : tid' = tid := by
                  simpa using hs
                subst htid
                have hself := update_lead_lookup_self uf store l.id u r hufl hr
                have hframe := runCampaignAux_frame sendO uf now campaign ls
                  (i + 1) store' l.id hndl
                rw [hframe, hstore', hself]
                simp [applyUpdates, hu]
              · intro hnone
                rw [Nat.add_zero] at hnone
                rw [hnone] at hs
                exact absurd hs (by simp)
          | succ j' =>
              simp only [List.getElem?_cons_succ] at hj
              have hidx : i + (j' + 1) = (i + 1) + j' := by omega
              have hlj : lj.id ≠ l.id := by
                intro he
                exact hndl (he ▸ (List.mem_map.mpr ⟨lj, List.getElem?_mem hj, rfl⟩))
              have hsame : lookupStore store' lj.id = lookupStore store lj.id := by
                rw [hstore']
                exact update_lead_lookup_other uf store l.id u lj.id hlj
              have := ihh.2 j' lj hj
              constructor
              · intro tid' htid' r hr
                rw [hidx] at htid'
                exact this.1 tid' htid' r (by rw [hsame]; exact hr)
              · intro hnone
                rw [hidx] at hnone
                rw [this.2 hnone, hsame]

/-- A present key has a looked-up value. -/
theorem storeHas_lookup (st : Store) (id : String) (h : storeHas st id = true) :
    ∃ r, List.lookup id st = some r := by
  induction st with
  | nil => simp [storeHas] at h
  | cons p ps ih =>
      rcases p with ⟨k, v⟩
      cases hk : (k == id) with
      | true =>
          have hik : (id == k) = true := by
            have hk' : k = id := by simpa using hk
            simp [hk']
          exact ⟨v, by simp [List.lookup_cons, hik]⟩
      | false =>
          have ht : storeHas ps id = true := by
            simpa [storeHas, List.any_cons, hk] using h
          obtain ⟨r, hr⟩ := ih ht
          have hik : (id == k) = false := by
            have hk' : ¬ k = id := by simpa using hk
            have hik' : ¬ id = k := fun e => hk' e.symm
            simp [hik']
          exact ⟨r, by simp [List.lookup_cons, hik, hr]⟩

/-! Section: Claim C4 -/

/-- C4: in run_campaign_send over a batch of leads held by a working store
(no injected update failures, every lead's document present, distinct ids),
a send failure for lead i — the gateway raising, or returning None or "" —
does not prevent the send attempts for the later leads (the attempted
recipients are exactly the whole input list, in order, whatever the
gateway outcomes); afterwards exactly the leads whose send returned a
truthy thread id carry the status-"sent" update (with thread id, timestamp,
campaign id and incremented sent_count), and the others are exactly as
before.  run_campaign_send is a total function: the per-lead try/except of
the source is the `SendOutcome.raise` branch, so it never raises to its
caller. -/
theorem C4_run_campaign_send (sendO : Nat → SendOutcome) (uf : String → Bool)
    (now : Nat) (campaign : PyCampaign) (leads : List CLead) (store : Store)
    (huf : ∀ l ∈ leads, uf l.id = false)
    (hhas : ∀ l ∈ leads, storeHas store l.id = true)
    (hnd : (leads.map (fun l => l.id)).Nodup) :
    (run_campaign_send sendO uf now campaign leads store).2 =
      leads.map (fun l => l.email) ∧
    (∀ j l, leads[j]? = some l →
      (∀ tid, sendSucceeded (sendO j) = some tid →
        ∀ r, lookupStore store l.id = some r →
        lookupStore (run_campaign_send sendO uf now campaign leads store).1 l.id =
          some { status := "sent", score := r.score, thread_id := some tid,
                 last_activity := now, campaign_id := some campaign.id,
                 sent_count := l.sent_count + 1 }) ∧
      (sendSucceeded (sendO j) = none →
        lookupStore (run_campaign_send sendO uf now campaign leads store).1 l.id =
          lookupStore store l.id)) := by
  have h := runCampaignAux_spec sendO uf now campaign leads 0 store huf hhas hnd
  simpa [run_campaign_send] using h

/-- First lead of the C4 witness batch. -/
def c4Lead1 : CLead :=
  { id := "L1", name := "John", company := "Acme", email := "john@acme.com",
    sent_count := 0 }

/-- Second lead of the C4 witness batch. -/
def c4Lead2 : CLead :=
  { id := "L2", name := "Jane", company := "Globex", email := "jane@globex.com",
    sent_count := 2 }

/-- Stored document shared by the C4 witness leads. -/
def c4Rec : StoredLead :=
  { status := "imported", score := "Warm", thread_id := none,
    last_activity := 0, campaign_id := none, sent_count := 0 }

/-- C4 witness store. -/
def c4Store : Store := [("L1", c4Rec), ("L2", c4Rec)]

/-- C4 witness gateway: the first send succeeds with thread "T1", the
second raises. -/
def c4SendO : Nat → SendOutcome :=
  fun i => bif i == 0 then .ret (some "T1") else .raise

/-- C4 witness: concrete two-lead batch in which the second send raises;
both sends are attempted, the first lead is updated to status "sent", the
second is untouched. -/
theorem C4_run_campaign_send_witness :
    (run_campaign_send c4SendO (fun _ => false) 7 { name := "Camp", id := "C1" }
      [c4Lead1, c4Lead2] c4Store).2 = ["john@acme.com", "jane@globex.com"] ∧
    lookupStore (run_campaign_send c4SendO (fun _ => false) 7
      { name := "Camp", id := "C1" } [c4Lead1, c4Lead2] c4Store).1 "L1" =
      some { status := "sent", score := "Warm", thread_id := some "T1",
             last_activity := 7, campaign_id := some "C1", sent_count := 1 } ∧
    lookupStore (run_campaign_send c4SendO (fun _ => false) 7
      { name := "Camp", id := "C1" } [c4Lead1, c4Lead2] c4Store).1 "L2" =
      some c4Rec := by
  have h := C4_run_campaign_send c4SendO (fun _ => false) 7
    { name := "Camp", id := "C1" } [c4Lead1, c4Lead2] c4Store
    (by intro l _; rfl) (by decide) (by decide)
  refine ⟨h.1.trans (by rfl), ?_, ?_⟩
  · exact (h.2 0 c4Lead1 rfl).1 "T1" rfl c4Rec rfl
  · exact ((h.2 1 c4Lead2 rfl).2 rfl).trans rfl

/-! Section: Claim C9 -/

/-- C9: send_follow_up composes a body embedding the literal scheduling
link; the status field of every stored lead is left unchanged in all cases;
documents other than the given lead's are never touched; and on a
successful send (truthy thread id, working store) exactly `last_activity`
and `sent_count` are updated, every other field — status in particular —
being kept. -/
theorem C9_send_follow_up (sendO : SendOutcome) (uf : String → Bool)
    (now : Nat) (lead : CLead) (step : Nat) (store : Store) :
    strContains (followUpBody lead) CALENDLY_LINK = true ∧
    (∀ x, (lookupStore (send_follow_up sendO uf now lead step store) x).map
        (fun r => r.status) =
      (lookupStore store x).map (fun r => r.status)) ∧
    (∀ x, x ≠ lead.id →
      lookupStore (send_follow_up sendO uf now lead step store) x =
        lookupStore store x) ∧
    (∀ tid r, sendSucceeded sendO = some tid → uf lead.id = false →
      lookupStore store lead.id = some r →
      lookupStore (send_follow_up sendO uf now lead step store) lead.id =
        some { status := r.status, score := r.score, thread_id := r.thread_id,
               last_activity := now, campaign_id := r.campaign_id,
               sent_count := lead.sent_count + 1 }) := by
  refine ⟨?_, ?_, ?_, ?_⟩
  · exact strContains_mid _ _
  · intro x
    cases hs : sendSucceeded sendO with
    | none => simp [send_follow_up, hs]
    | some tid =>
        by_cases hx : x = lead.id
        · subst hx
          cases hc : (uf lead.id || !(storeHas store lead.id)) with
          | true =>
              simp [send_follow_up, hs, update_lead, hc]
          | false =>
              have huf : uf lead.id = false := by
                rcases Bool.or_eq_false_iff.mp hc with ⟨h1, _⟩
                exact h1
              have hhas : storeHas store lead.id = true := by
                rcases Bool.or_eq_false_iff.mp hc with ⟨_, h2⟩
                simpa using h2
              obtain ⟨r, hr⟩ := storeHas_lookup store lead.id hhas
              have hself := update_lead_lookup_self uf store lead.id
                { status := none, score := none, thread_id := none,
                  last_activity := some now, campaign_id := none,
                  sent_count := some (lead.sent_count + 1) } r huf hr
              simp only [send_follow_up, hs]
              rw [hself]
              rw [show lookupStore store lead.id = some r from hr]
              simp [applyUpdates]
        · cases hs2 : sendSucceeded sendO with
          | none => simp [send_follow_up, hs2]
          | some tid2 =>
              simp only [send_follow_up, hs2]
              rw [update_lead_lookup_other uf store lead.id _ x hx]
  · intro x hx
    cases hs : sendSucceeded sendO with
    | none => simp [send_follow_up, hs]
    | some tid =>
        simp only [send_follow_up, hs]
        exact update_lead_lookup_other uf store lead.id _ x hx
  · intro tid r hs huf hr
    simp only [send_follow_up, hs]
    rw [update_lead_lookup_self uf store lead.id _ r huf hr]
    simp [applyUpdates]

/-- C9 witness: the theorem applied at a concrete successful follow-up
send. -/
theorem C9_send_follow_up_witness :
    strContains (followUpBody c4Lead1) CALENDLY_LINK = true ∧
    lookupStore (send_follow_up (SendOutcome.ret (some "T9")) (fun _ => false)
      42 c4Lead1 1 c4Store) "L2" = lookupStore c4Store "L2" ∧
    lookupStore (send_follow_up (SendOutcome.ret (some "T9")) (fun _ => false)
      42 c4Lead1 1 c4Store) "L1" =
      some { status := "imported", score := "Warm", thread_id := none,
             last_activity := 42, campaign_id := none, sent_count := 1 } := by
  have h := C9_send_follow_up (SendOutcome.ret (some "T9")) (fun _ => false)
    42 c4Lead1 1 c4Store
  refine ⟨h.1, h.2.2.1 "L2" (by decide), ?_⟩
  exact h.2.2.2 "T9" c4Rec rfl rfl rfl


/-! Section: integrations.py / automation.py: the reply monitor

The mailbox is the list of messages; integrations.GmailAPI.get_replies
returns the unread ones whose subject lowercases to a "re:" prefix, and
mark_as_read clears the unread flag of one message id.  One poll cycle
(automation.ResponseMonitor.check_replies) walks the candidates computed
at the start of the cycle; the single try/except wraps the WHOLE loop, so
the first raising step ends the cycle.

Two source facts shape the embedding of the per-candidate body.  First,
the source computes the score as `score_lead(reply['snippet'])` — the raw
snippet, not the classification token (claim C5).  Second,
database.get_lead_by_thread_id returns `doc.to_dict()`, the document
FIELDS ONLY: no write path in the repository ever stores an 'id' field
(database.save_lead dumps the pydantic Lead model, which has none), so for
every matched candidate the access `lead['id']` at automation.py line 129
raises KeyError before update_lead is called.  The cycle therefore never
performs a store update and never reaches mark_as_read; the cycle-level
handler catches the KeyError and the poll cycle ends there. -/

/-- A mailbox message (the fields get_replies projects, plus the unread
flag that the `is:unread` query and mark_as_read manipulate). -/
structure Msg where
  id : String
  threadId : String
  snippet : String
  subject : String
  unread : Bool
deriving DecidableEq

/-- integrations.get_replies candidate filter: unread and
`subject.lower().startswith("re:")`. -/
def isReplyCandidate (m : Msg) : Bool :=
  m.unread && "re:".data.isPrefixOf (lowerStr m.subject).data

/-- integrations.GmailAPI.get_replies: the reply candidates of the
mailbox, in mailbox order. -/
def get_replies (mailbox : List Msg) : List Msg :=
  mailbox.filter isReplyCandidate

/-- integrations.GmailAPI.mark_as_read: clear the unread flag of the
message with the given id.  (In this repository the poll cycle never
reaches its mark_as_read call — the KeyError at `lead['id']` precedes it —
so this gateway operation is unreachable from the cycle.) -/
def mark_as_read (mailbox : List Msg) (id : String) : List Msg :=
  mailbox.map (fun m => bif m.id == id then { m with unread := false } else m)

/-- automation.ResponseMonitor.check_replies, source line 127:
`LEAD_STATUS_MAP.get(classification, "replied")`. -/
def leadStatusFor (classification : String) : String :=
  (LEAD_STATUS_MAP.lookup classification).getD "replied"

/-- database.get_lead_by_thread_id: the first lead document whose
`thread_id` equals the given thread id, as `doc.to_dict()` — the stored
fields only, with NO document id ('id' is not a stored field); `none` when
there is no match (also on the swallowed ConnectionError). -/
def get_lead_by_thread_id (store : Store) (tid : String) : Option StoredLead :=
  (store.find? (fun p => p.2.thread_id == some tid)).map (fun p => p.2)

/-- The external-collaborator behaviour during one poll cycle: the
generator outcome for the classification call on each snippet, and the
injected store failures (exceptions other than the ConnectionError the
database helpers swallow) for thread lookups and document updates.  The
update part of the interface is unreachable from the cycle in this
repository (the KeyError at `lead['id']` precedes every update call). -/
structure CycleEnv where
  gen : String → GenOutcome
  lookupFails : String → Bool
  updateFails : String → Bool

/-- The mutable state one poll cycle acts on: the lead store and the
mailbox. -/
structure CycleState where
  store : Store
  mailbox : List Msg

/-- Processing of one reply candidate (the body of the `for reply in
replies` loop): lead lookup by thread id, then — when a lead is found —
classification of the snippet, scoring of the snippet (as in the source)
and the status mapping, after which the argument `lead['id']` of the
update_lead call raises KeyError: the dictionary returned by
get_lead_by_thread_id has no 'id' key.  So a found lead always raises
before any state change; update_lead and mark_as_read are never reached.
Returns the (unchanged) state and whether an exception was raised, to be
caught by the cycle-level handler. -/
def processReply (env : CycleEnv) (_now : Nat) (st : CycleState) (r : Msg) :
    CycleState × Bool :=
  bif env.lookupFails r.threadId then (st, true)
  else
    match get_lead_by_thread_id st.store r.threadId with
    | none => (st, false)
    | some _lead =>
        let _classification := classify_response (env.gen r.snippet)
        let _score := score_lead r.snippet
        let _new_status := leadStatusFor _classification
        (st, true)

/-- The candidate loop: processing stops at the first raising candidate
(the source's try/except surrounds the whole loop). -/
def processReplies (env : CycleEnv) (now : Nat) :
    List Msg → CycleState → CycleState
  | [], st => st
  | r :: rs, st =>
      match processReply env now st r with
      | (st', true) => st'
      | (st', false) => processReplies env now rs st'

/-- automation.ResponseMonitor.check_replies: one poll cycle.  The cycle
never raises (the cycle-level `except Exception` catches everything);
an empty candidate list returns immediately, which coincides with
processing the empty list. -/
def check_replies (env : CycleEnv) (now : Nat) (st : CycleState) : CycleState :=
  processReplies env now (get_replies st.mailbox) st

/-- The message ids a cycle examines, in order, up to and including the
candidate whose processing raises (if any). -/
def processedIds (env : CycleEnv) (now : Nat) :
    List Msg → CycleState → List String
  | [], _ => []
  | r :: rs, st =>
      match processReply env now st r with
      | (st', false) => r.id :: processedIds env now rs st'
      | (_, true) => [r.id]

/-- Every branch of one candidate's processing — lookup failure, no
matching lead, or the KeyError of a matched lead — leaves the state
unchanged. -/
theorem processReply_state_eq (env : CycleEnv) (now : Nat) (st : CycleState)
    (r : Msg) : (processReply env now st r).1 = st := by
  cases hl : env.lookupFails r.threadId with
  | true => simp [processReply, hl]
  | false =>
      simp only [processReply, hl, Bool.cond_false]
      cases hg : get_lead_by_thread_id st.store r.threadId with
      | none => rfl
      | some lead => simp [hg]

/-- The candidate loop leaves the state unchanged: in this repository a
poll cycle performs no observable state change at all. -/
theorem processReplies_state_eq (env : CycleEnv) (now : Nat) :
    ∀ (rs : List Msg) (st : CycleState), processReplies env now rs st = st := by
  intro rs
  induction rs with
  | nil => intro st; rfl
  | cons r rs ih =>
      intro st
      simp only [processReplies]
      cases hb : (processReply env now st r).2 with
      | true =>
          rw [show processReply env now st r = (st, true) from
            Prod.ext (processReply_state_eq env now st r) hb]
      | false =>
          rw [show processReply env now st r = (st, false) from
            Prod.ext (processReply_state_eq env now st r) hb]
          exact ih st

/-- One poll cycle leaves the store and the mailbox unchanged. -/
theorem check_replies_state_eq (env : CycleEnv) (now : Nat) (st : CycleState) :
    check_replies env now st = st :=
  processReplies_state_eq env now (get_replies st.mailbox) st

/-- The examined-candidate trace of a cycle, in closed form: all the
non-raising candidates up to the first raising one, which is examined and
then ends the cycle; everything after it is skipped. -/
theorem processedIds_eq (env : CycleEnv) (now : Nat) (st : CycleState) :
    ∀ rs : List Msg,
    processedIds env now rs st =
      (rs.takeWhile (fun r => !(processReply env now st r).2)).map
          (fun m => m.id) ++
        ((rs.dropWhile (fun r => !(processReply env now st r).2)).head?.map
          (fun m => m.id)).toList := by
  intro rs
  induction rs with
  | nil => rfl
  | cons r rs ih =>
      cases hb : (processReply env now st r).2 with
      | true =>
          simp only [processedIds]
          rw [show processReply env now st r = (st, true) from
            Prod.ext (processReply_state_eq env now st r) hb]
          simp [List.takeWhile_cons, List.dropWhile_cons, hb]
      | false =>
          simp only [processedIds]
          rw [show processReply env now st r = (st, false) from
            Prod.ext (processReply_state_eq env now st r) hb]
          simp [List.takeWhile_cons, List.dropWhile_cons, hb, ih]

/-! Section: Claim C5 -/

/-- Stored lead of the interested-reply scenario (score deliberately
"Cold" so that both "no write happened" and "neither Hot nor Warm was
written" are visible). -/
def c5Lead : StoredLead :=
  { status := "sent", score := "Cold", thread_id := some "t1",
    last_activity := 0, campaign_id := some "c1", sent_count := 1 }

/-- The interested reply snippet of the scenario. -/
def c5Snippet : String := "Yes I\x27m very interested, let\x27s talk"

/-- State of the interested-reply scenario: one lead on thread t1, one
unread reply on that thread. -/
def c5State : CycleState :=
  { store := [("L1", c5Lead)],
    mailbox := [{ id := "m1", threadId := "t1", snippet := c5Snippet,
                  subject := "Re: hello", unread := true }] }

/-- Collaborators of the interested-reply scenario: the classifier returns
'interested', no injected store failures. -/
def c5Env : CycleEnv :=
  { gen := fun _ => .retStr "interested",
    lookupFails := fun _ => false,
    updateFails := fun _ => false }

/-- C5: for the reply snippet "Yes I'm very interested, let's talk" whose
thread matches a lead and whose classification is 'interested', the claim
(with the spec) says the cycle persists status "Interested" and score
"Hot" — and those are indeed the values the status table and score table
give for the 'interested' token.  The code persists NEITHER: the cycle
leaves the store (and mailbox) completely unchanged, because `lead['id']`
raises KeyError — get_lead_by_thread_id returns the document fields
without an id — before update_lead is called; and the score the cycle
computes before raising is score_lead applied to the raw snippet, i.e.
"Warm", not "Hot", contradicting score_lead's own documented argument
("the current status of the lead").  The claim matches the documented
intent; the code is wrong on both counts. -/
theorem C5_cycle_interested_persists_nothing :
    classify_response (c5Env.gen c5Snippet) = "interested" ∧
    leadStatusFor "interested" = "Interested" ∧
    score_lead "interested" = "Hot" ∧
    score_lead c5Snippet = "Warm" ∧
    check_replies c5Env 5 c5State = c5State ∧
    (lookupStore (check_replies c5Env 5 c5State).store "L1").map
      (fun r => r.status) = some "sent" ∧
    (lookupStore (check_replies c5Env 5 c5State).store "L1").map
      (fun r => r.score) = some "Cold" := by
  refine ⟨by decide, rfl, rfl, by decide, check_replies_state_eq c5Env 5 c5State,
    by decide, by decide⟩

/-! Section: Claim C8 -/

/-- The configured keys of LEAD_STATUS_MAP. -/
def statusKeys : List String :=
  ["imported", "sent", "replied", "interested", "not_interested"]

/-- The out-of-office reply snippet of the scenario. -/
def c8Snippet : String := "I\x27ll be out of office until Monday"

/-- State of the out-of-office scenario: one lead on thread t1, one unread
reply on that thread. -/
def c8State : CycleState :=
  { store := [("L1", c5Lead)],
    mailbox := [{ id := "m1", threadId := "t1", snippet := c8Snippet,
                  subject := "Re: hello", unread := true }] }

/-- Collaborators of the out-of-office scenario: the classifier returns
'ooo', no injected store failures. -/
def c8Env : CycleEnv :=
  { gen := fun _ => .retStr "ooo",
    lookupFails := fun _ => false,
    updateFails := fun _ => false }

/-- C8: the configuration table maps exactly as the claim states
(imported→Imported, sent→Email Sent, replied→Replied,
interested→Interested, not_interested→Not Interested), and every
classification outside the table — 'ooo' in particular — maps to
"replied"; in the out-of-office scenario the cycle computes exactly those
claimed values (status "replied", score "Warm" — the latter as the score
table's default on the raw snippet).  But the cycle PERSISTS neither: the
store is unchanged after the cycle (status still "sent", score still
"Cold"), because `lead['id']` raises KeyError before update_lead — so the
claim's persisted-score clause describes the documented intent, not what
the code does. -/
theorem C8_status_map (c : String) (h : c ∉ statusKeys) :
    leadStatusFor "imported" = "Imported" ∧
    leadStatusFor "sent" = "Email Sent" ∧
    leadStatusFor "replied" = "Replied" ∧
    leadStatusFor "interested" = "Interested" ∧
    leadStatusFor "not_interested" = "Not Interested" ∧
    leadStatusFor c = "replied" ∧
    classify_response (c8Env.gen c8Snippet) = "ooo" ∧
    score_lead c8Snippet = "Warm" ∧
    check_replies c8Env 5 c8State = c8State ∧
    (lookupStore (check_replies c8Env 5 c8State).store "L1").map
      (fun r => r.status) = some "sent" ∧
    (lookupStore (check_replies c8Env 5 c8State).store "L1").map
      (fun r => r.score) = some "Cold" := by
  refine ⟨rfl, rfl, rfl, rfl, rfl, ?_, by decide, by decide,
    check_replies_state_eq c8Env 5 c8State, by decide, by decide⟩
  simp only [statusKeys, List.mem_cons, List.not_mem_nil, or_false, not_or] at h
  obtain ⟨h1, h2, h3, h4, h5⟩ := h
  simp [leadStatusFor, LEAD_STATUS_MAP, List.lookup_cons,
    beq_false_of_ne h1, beq_false_of_ne h2, beq_false_of_ne h3,
    beq_false_of_ne h4, beq_false_of_ne h5]

/-- C8 witness: the theorem applied at the concrete unmapped classification
'ooo'. -/
theorem C8_status_map_witness :
    "ooo" ∉ statusKeys ∧ leadStatusFor "ooo" = "replied" :=
  ⟨by decide, (C8_status_map "ooo" (by decide)).2.2.2.2.2.1⟩

/-! Section: Claim C6 -/

/-- Second stored lead of the C6 scenario. -/
def c6Lead2 : StoredLead :=
  { status := "sent", score := "Warm", thread_id := some "t2",
    last_activity := 0, campaign_id := some "c1", sent_count := 1 }

/-- First reply candidate of the C6 scenario: it matches lead L1, so its
processing raises (KeyError at `lead['id']`). -/
def c6Msg1 : Msg :=
  { id := "m1", threadId := "t1", snippet := "reply one",
    subject := "Re: a", unread := true }

/-- Second reply candidate of the C6 scenario, skipped by the code. -/
def c6Msg2 : Msg :=
  { id := "m2", threadId := "t2", snippet := "reply two",
    subject := "Re: b", unread := true }

/-- C6 scenario state: two leads on threads t1/t2, two unread reply
candidates. -/
def c6State : CycleState :=
  { store := [("L1", c5Lead), ("L2", c6Lead2)],
    mailbox := [c6Msg1, c6Msg2] }

/-- C6 scenario collaborators: no injected failures at all — the raise
comes solely from the source's own KeyError on a matched lead. -/
def c6Env : CycleEnv :=
  { gen := fun _ => .retStr "interested",
    lookupFails := fun _ => false,
    updateFails := fun _ => false }

/-- C6 counterexample: the claim states that an error raised while
processing a single reply candidate is treated as the failure of that
single operation only, the remaining candidates of the same cycle still
being processed.  In this concrete cycle both messages are candidates;
processing the first one raises (the KeyError at `lead['id']` of its
matched lead, with no injected failures), and the cycle's
examined-candidate trace is exactly ["m1"]: the second candidate is never
examined — no lead lookup, no classification — because the source's
try/except wraps the whole candidate loop and the first raise aborts it.
(The cycle also changes nothing, so containment per candidate cannot be
saved by looking at the state.) -/
theorem C6_counterexample :
    get_replies c6State.mailbox = [c6Msg1, c6Msg2] ∧
    (processReply c6Env 5 c6State c6Msg1).2 = true ∧
    processedIds c6Env 5 (get_replies c6State.mailbox) c6State = ["m1"] ∧
    check_replies c6Env 5 c6State = c6State := by
  refine ⟨by decide, by decide, by decide, check_replies_state_eq c6Env 5 c6State⟩

/-- C6 (amended): an error raised while processing a reply candidate is
caught by the CYCLE-level handler — check_replies never propagates an
exception (it is a total function) and, every branch of a candidate's
processing in this repository leaving the state as it was, one poll cycle
changes nothing at all; but the remaining candidates of that cycle are
skipped, not processed: the cycle examines exactly the non-raising prefix
of its candidates plus the first raising one, and nothing after it. -/
theorem C6_check_replies_containment (env : CycleEnv) (now : Nat)
    (st : CycleState) :
    check_replies env now st = st ∧
    processedIds env now (get_replies st.mailbox) st =
      ((get_replies st.mailbox).takeWhile
          (fun r => !(processReply env now st r).2)).map (fun m => m.id) ++
        (((get_replies st.mailbox).dropWhile
          (fun r => !(processReply env now st r).2)).head?.map
            (fun m => m.id)).toList :=
  ⟨check_replies_state_eq env now st,
   processedIds_eq env now st (get_replies st.mailbox)⟩

/-! Section: Claim C10 -/

/-- automation.ResponseMonitor.run iterated over successive poll cycles,
each with its collaborator behaviour and timestamp. -/
def runCycles : List (CycleEnv × Nat) → CycleState → CycleState
  | [], st => st
  | c :: cs, st => runCycles cs (check_replies c.1 c.2 st)

/-- Any number of poll cycles leaves the state unchanged. -/
theorem runCycles_state_eq :
    ∀ (cycles : List (CycleEnv × Nat)) (st : CycleState),
    runCycles cycles st = st := by
  intro cycles
  induction cycles with
  | nil => intro st; rfl
  | cons c cs ih =>
      intro st
      simp only [runCycles, check_replies_state_eq]
      exact ih st

/-- C10: a reply candidate whose thread id matches no lead in the store is
neither used for a store update (its thread keeps matching no lead) nor
marked as read: the very same message, still unread, is produced again by
get_replies as a candidate after every number of further poll cycles,
whatever the collaborators do.  (Message ids are assumed unique in the
mailbox.) -/
theorem C10_unmatched_reply (cycles : List (CycleEnv × Nat)) (st : CycleState)
    (m : Msg) (hm : m ∈ st.mailbox) (hu : m.unread = true)
    (hre : "re:".data.isPrefixOf (lowerStr m.subject).data = true)
    (hno : get_lead_by_thread_id st.store m.threadId = none)
    (_hids : (st.mailbox.map (fun x => x.id)).Nodup) :
    m ∈ get_replies (runCycles cycles st).mailbox ∧
    m.unread = true ∧
    get_lead_by_thread_id (runCycles cycles st).store m.threadId = none := by
  rw [runCycles_state_eq]
  exact ⟨List.mem_filter.mpr ⟨hm, by simp [isReplyCandidate, hu, hre]⟩, hu, hno⟩

/-- C10 witness store: one lead associated with thread t9. -/
def c10Store : Store :=
  [("L1", { status := "sent", score := "Warm", thread_id := some "t9",
            last_activity := 0, campaign_id := none, sent_count := 1 })]

/-- C10 witness message: an unread reply on thread t0, matching no lead. -/
def c10Msg : Msg :=
  { id := "m0", threadId := "t0", snippet := "who is this?",
    subject := "Re: hello", unread := true }

/-- C10 witness: the theorem applied to a concrete two-cycle run over a
mailbox holding one unmatched reply candidate. -/
theorem C10_unmatched_reply_witness :
    c10Msg ∈ get_replies (runCycles [(c8Env, 1), (c5Env, 2)]
      { store := c10Store, mailbox := [c10Msg] }).mailbox ∧
    get_lead_by_thread_id (runCycles [(c8Env, 1), (c5Env, 2)]
      { store := c10Store, mailbox := [c10Msg] }).store "t0" = none := by
  have h := C10_unmatched_reply [(c8Env, 1), (c5Env, 2)]
    { store := c10Store, mailbox := [c10Msg] } c10Msg
    (by simp) (by rfl) (by decide) (by rfl) (by decide)
  exact ⟨h.1, h.2.2⟩

/-! Section: Claim C7: the monitor loop

automation.ResponseMonitor.run is
`while not self._stop_event.is_set(): self.check_replies(); time.sleep(...)`:
the stop flag is read ONLY in the while condition — check_replies never
consults it, and the sleep completes before the next read.  The loop is
embedded as a trace generator: the schedule lists, per iteration, the
value the flag read returns (a concurrent `stop()` call during the
previous cycle or sleep makes the NEXT read return true) together with
that cycle's collaborator behaviour.  The produced event trace interleaves
cycle-start / per-candidate / cycle-end / sleep events and a final stop
event; the claim is the shape of this trace: an exit event can only follow
a completed cycle (or precede any cycle), never sit between a cycle's
start and end. -/

/-- Observable events of the monitor loop. -/
inductive MEvent where
  | cycleStart : MEvent
  | processed : String → MEvent
  | cycleEnd : MEvent
  | slept : MEvent
  | stopped : MEvent
deriving DecidableEq

/-- The events of one complete poll cycle. -/
def cycleTrace (env : CycleEnv) (now : Nat) (st : CycleState) : List MEvent :=
  MEvent.cycleStart ::
    ((processedIds env now (get_replies st.mailbox) st).map MEvent.processed ++
      [MEvent.cycleEnd])

/-- automation.ResponseMonitor.run: each iteration reads the stop flag; a
true read exits the loop, a false read runs one complete poll cycle and
then sleeps.  An exhausted schedule means the loop is still running (trace
observed so far). -/
def monitorRun : List (Bool × CycleEnv × Nat) → CycleState → List MEvent
  | [], _ => []
  | (stopFlag, env, now) :: rest, st =>
      bif stopFlag then [MEvent.stopped]
      else cycleTrace env now st ++
        (MEvent.slept :: monitorRun rest (check_replies env now st))

/-- Trace well-formedness scanner: outside a cycle, a start opens a cycle,
a sleep is allowed, and a stop must end the trace; inside a cycle only
candidate events and the cycle end are allowed.  In particular a trace
that stops while inside a cycle is rejected. -/
def traceOkAux : List MEvent → Bool → Bool
  | [], inCycle => !inCycle
  | e :: es, inCycle =>
      match e, inCycle with
      | .cycleStart, false => traceOkAux es true
      | .processed _, true => traceOkAux es true
      | .cycleEnd, true => traceOkAux es false
      | .slept, false => traceOkAux es false
      | .stopped, false => es.isEmpty
      | _, _ => false

/-- Whether a monitor trace consists of complete cycles with the stop, if
any, final and between cycles. -/
def traceOk (t : List MEvent) : Bool := traceOkAux t false

/-- Scanning candidate events keeps the scanner inside the cycle. -/
theorem traceOkAux_processed (ids : List String) (rest : List MEvent) :
    traceOkAux (ids.map MEvent.processed ++ rest) true = traceOkAux rest true := by
  induction ids with
  | nil => rfl
  | cons id ids ih => simpa [traceOkAux] using ih

/-- C7: every trace the monitor loop can produce — whatever the stop-flag
read outcomes, collaborator behaviours and initial state — is a sequence
of COMPLETE poll cycles, with the stop event, when present, final and
strictly between cycles: a stop flag set while a cycle is in progress or
mid-sleep is only observed at the next top-of-loop read, after the running
cycle has completed, and the loop never exits between a cycle's start and
its end (no partial reply processing is observable at exit). -/
theorem C7_monitor_trace (sched : List (Bool × CycleEnv × Nat))
    (st : CycleState) : traceOk (monitorRun sched st) = true := by
  induction sched generalizing st with
  | nil => rfl
  | cons c rest ih =>
      rcases c with ⟨stopFlag, env, now⟩
      cases stopFlag with
      | true => rfl
      | false =>
          simp only [monitorRun, Bool.cond_false, cycleTrace, traceOk,
            List.cons_append, List.append_assoc]
          simp only [traceOkAux]
          rw [traceOkAux_processed]
          simpa [traceOkAux] using ih (check_replies env now st)

end SalesAssistant
